import Mathlib

/-!
Verification of the syft-flwr filesystem-backed request/response transport
and round coordinator, following the repository's design documents
(docs/message_flow.md and the system specification).  The transport core
itself (grid.py, rpc.py, flower_client.py) is not shipped in this source
snapshot, so each component below is modelled from the specification's
description of it and the claims are settled against these models.
-/

namespace SyftFlwr

/-- Modelled from the spec: error raised by the Message Codec on truncated
or malformed frames (missing codec code of `rpc.py`). -/
inductive DecodeError
  | truncated
deriving DecidableEq

/-- Modelled from the spec: big-endian 4-byte header carrying the metadata
length inside an encoded frame (missing codec code of `rpc.py`). -/
def natTo4Bytes (n : Nat) : List Nat :=
  [n / 16777216 % 256, n / 65536 % 256, n / 256 % 256, n % 256]

/-- Modelled from the spec: `encode(payload, metadata) -> frame` of the
Message Codec (missing codec code of `rpc.py`).  The frame is a
length-prefixed metadata block followed by the opaque payload bytes. -/
def encode (payload metadata : List Nat) : List Nat :=
  natTo4Bytes metadata.length ++ metadata ++ payload

/-- Modelled from the spec: `decode(frame) -> (payload, metadata)` of the
Message Codec, failing with `DecodeError` on truncated frames (missing
codec code of `rpc.py`). -/
def decode (frame : List Nat) : Except DecodeError (List Nat × List Nat) :=
  match frame with
  | b0 :: b1 :: b2 :: b3 :: rest =>
    let n := ((b0 * 256 + b1) * 256 + b2) * 256 + b3
    if n ≤ rest.length then Except.ok (rest.drop n, rest.take n)
    else Except.error DecodeError.truncated
  | _ => Except.error DecodeError.truncated

/-- Modelled from the spec: message kind of a wire frame,
`Request | Response` (missing transport code of `rpc.py`). -/
inductive Kind
  | request
  | response
deriving DecidableEq

/-- Modelled from the spec: body of a frame, either an opaque payload or an
explicit error-response produced from a handler failure (missing receiver
code of `flower_client.py`). -/
inductive Body
  | ok (payload : String)
  | err (msg : String)
deriving DecidableEq

/-- Modelled from the spec: a wire frame with id, sender and recipient
identities, kind and, for responses, a correlation id equal to the
originating request id (missing transport code of `rpc.py`). -/
structure Frame where
  id : String
  sender : String
  recipient : String
  kind : Kind
  correlationId : Option String
  body : Body
deriving DecidableEq

/-- Modelled from the spec: the result a sender's `wait` yields, either the
response payload or a receiver-side `HandlerError` (missing sender code of
`grid.py`). -/
inductive WaitResult
  | ok (payload : String)
  | handlerError (msg : String)
deriving DecidableEq

/-- Modelled from the spec: status of a Pending Request,
`Pending | Fulfilled | TimedOut` (missing sender code of `grid.py`). -/
inductive ReqStatus
  | pending
  | fulfilled (r : WaitResult)
  | timedOut
deriving DecidableEq

/-- Modelled from the spec: a Pending Request `{id, deadline, status}`
registered by the Outbound Tracker on `send` (missing sender code of
`grid.py`). -/
structure PendingRequest where
  id : String
  deadline : Nat
  status : ReqStatus
deriving DecidableEq

/-- Modelled from the spec: conversion of an observed response body into
the result handed to the waiting caller (missing sender code of
`grid.py`). -/
def resultOfBody : Body → WaitResult
  | Body.ok p => WaitResult.ok p
  | Body.err m => WaitResult.handlerError m

/-- Modelled from the spec: lookup of a Pending Request by message id in
the Outbound Tracker's table (missing sender code of `grid.py`). -/
def findReq (st : List PendingRequest) (i : String) : Option PendingRequest :=
  st.find? (fun pr => pr.id == i)

/-- Modelled from the spec: mark the Pending Request with the given id
Fulfilled, storing its result (missing sender code of `grid.py`). -/
def fulfill (st : List PendingRequest) (i : String) (r : WaitResult) :
    List PendingRequest :=
  st.map (fun pr =>
    if pr.id == i then { pr with status := ReqStatus.fulfilled r } else pr)

/-- Modelled from the spec: `cancel(handle)` removes the Pending Request
early, so late responses for it are treated as stale (missing sender code
of `grid.py`). -/
def cancel (st : List PendingRequest) (i : String) : List PendingRequest :=
  st.filter (fun pr => !(pr.id == i))

/-- Modelled from the spec: registration of a fresh Pending Request when a
later round sends to a target again (missing sender code of `grid.py`). -/
def registerPending (st : List PendingRequest) (pr : PendingRequest) :
    List PendingRequest :=
  pr :: st

/-- Modelled from the spec: classification of one observed frame by the
Outbound Tracker: fulfilled a wait, duplicate delivery (discarded, not an
error), stale (no matching pending request, discarded), or ignored
(not a response frame) (missing sender code of `grid.py`). -/
inductive ObserveOutcome
  | fulfilled (r : WaitResult)
  | duplicateDelivery
  | stale
  | ignored
deriving DecidableEq

/-- Modelled from the spec: the Outbound Tracker observing one frame in
the local mailbox.  The first matching response frame fulfills the
Pending Request; a response whose request is already resolved is a
`DuplicateDelivery`; a response with no matching pending request is stale;
both are discarded without touching the table (missing sender code of
`grid.py`). -/
def observeResponse (st : List PendingRequest) (f : Frame) :
    List PendingRequest × ObserveOutcome :=
  match f.kind, f.correlationId with
  | Kind.response, some cid =>
    match findReq st cid with
    | some pr =>
      match pr.status with
      | ReqStatus.pending =>
        (fulfill st cid (resultOfBody f.body),
         ObserveOutcome.fulfilled (resultOfBody f.body))
      | _ => (st, ObserveOutcome.duplicateDelivery)
    | none => (st, ObserveOutcome.stale)
  | _, _ => (st, ObserveOutcome.ignored)

/-- Modelled from the spec: how a single `wait` ends, with the response
observed or with the deadline elapsed (missing sender code of
`grid.py`). -/
inductive WaitEnd
  | fulfilled
  | timedOut
deriving DecidableEq

/-- Modelled from the spec: bounded backoff of the sender's poll loop; the
interval grows but is capped at `cap` (missing sender code of
`grid.py`). -/
def nextInterval (cap i : Nat) : Nat :=
  min (max (2 * i) 1) cap

/-- Modelled from the spec: the sender's `wait` as a poll-with-backoff
loop over discrete time; at each poll time it first checks whether the
response has been observed, then whether the deadline has elapsed, and
otherwise sleeps for the current (capped) interval.  Fuel makes the
recursion structural (missing sender code of `grid.py`). -/
def waitPoll (responded : Nat → Bool) (deadline cap : Nat) :
    Nat → Nat → Nat → Option (Nat × WaitEnd)
  | _, _, 0 => none
  | now, interval, fuel + 1 =>
    if responded now then some (now, WaitEnd.fulfilled)
    else if deadline ≤ now then some (now, WaitEnd.timedOut)
    else waitPoll responded deadline cap (now + interval)
      (nextInterval cap interval) fuel

/-- Modelled from the spec: state of the Inbound Watcher: the bounded
recently-processed id set, the response frames written so far, and a log
of handler invocations by request id (missing receiver code of
`flower_client.py`). -/
structure ReceiverState where
  processed : List String
  outbox : List Frame
  invocations : List String
deriving DecidableEq

/-- Modelled from the spec: the opaque payload the handler is invoked on
(missing receiver code of `flower_client.py`). -/
def payloadOf : Body → String
  | Body.ok p => p
  | Body.err m => m

/-- Modelled from the spec: the Response frame written for a request,
carrying correlation_id equal to the request id and the same id-based
naming scheme (missing receiver code of `flower_client.py`). -/
def responseFrame (f : Frame) (b : Body) : Frame :=
  { id := f.id, sender := f.recipient, recipient := f.sender,
    kind := Kind.response, correlationId := some f.id, body := b }

/-- Modelled from the spec: the body written back for a handler outcome;
a handler failure becomes an explicit error-response, never silence
(missing receiver code of `flower_client.py`). -/
def handlerBody (h : String → Except String String) (p : String) : Body :=
  match h p with
  | Except.ok q => Body.ok q
  | Except.error e => Body.err e

/-- Modelled from the spec: the Inbound Watcher processing one newly
observed frame: non-requests are ignored; a request whose id is already in
the recently-processed set is skipped; otherwise the handler is invoked
and, in the same atomic step, the id is marked processed and the response
(or error-response) frame is written (missing receiver code of
`flower_client.py`). -/
def handleRequest (h : String → Except String String) (st : ReceiverState)
    (f : Frame) : ReceiverState :=
  if f.kind = Kind.request then
    if f.id ∈ st.processed then st
    else
      { processed := f.id :: st.processed,
        outbox := st.outbox ++ [responseFrame f (handlerBody h (payloadOf f.body))],
        invocations := st.invocations ++ [f.id] }
  else st

/-- Modelled from the spec: `serve(handler)` scanning a sequence of
observed frames (missing receiver code of `flower_client.py`). -/
def serve (h : String → Except String String) (st : ReceiverState)
    (fs : List Frame) : ReceiverState :=
  fs.foldl (handleRequest h) st

/-- Number of occurrences of an id in a log of ids. -/
def countId (l : List String) (i : String) : Nat :=
  (l.filter (fun x => x == i)).length

/-- Modelled from the spec: a target's response schedule in a round: it
either responds at some time with a successful payload or an explicit
handler error, or never responds (test double for the external sync
channel; missing coordinator code of `grid.py`). -/
def RespEnv : Type :=
  String → Option (Nat × Except String String)

/-- Modelled from the spec: whether a target has delivered a successful
response by time `t` (missing coordinator code of `grid.py`). -/
def respondedOkBy (env : RespEnv) (g : String) (t : Nat) : Bool :=
  match env g with
  | some (tr, Except.ok _) => decide (tr ≤ t)
  | _ => false

/-- Modelled from the spec: how many targets have reached Fulfilled by
time `t` (missing coordinator code of `grid.py`). -/
def countFulfilledBy (env : RespEnv) (targets : List String) (t : Nat) : Nat :=
  (targets.filter (fun g => respondedOkBy env g t)).length

/-- Modelled from the spec: earliest time from `t` at which `p` holds,
scanning at most `fuel` further instants and otherwise stopping at the end
of the scan (missing coordinator code of `grid.py`). -/
def leastQuorumTime (p : Nat → Bool) : Nat → Nat → Nat
  | t, 0 => t
  | t, fuel + 1 => if p t then t else leastQuorumTime p (t + 1) fuel

/-- Modelled from the spec: the time at which `broadcast` returns: the
earliest time at which `min_complete` distinct targets are Fulfilled, or
`timeout`, whichever comes first (missing coordinator code of
`grid.py`). -/
def roundReturnTime (env : RespEnv) (targets : List String)
    (timeout k : Nat) : Nat :=
  leastQuorumTime (fun t => decide (k ≤ countFulfilledBy env targets t)) 0 timeout

/-- Modelled from the spec: `RoundResult{completed, timed_out, failed}`
returned by `broadcast` (missing coordinator code of `grid.py`). -/
structure RoundResult where
  completed : List (String × String)
  timedOut : List String
  failed : List (String × String)
deriving DecidableEq

/-- Modelled from the spec: `broadcast(targets, message, {timeout,
min_complete})`: sends to every target, returns at `roundReturnTime`, and
classifies every target: successful responses observed by then are
completed, explicit error responses are failed, and the rest are timed out
(missing coordinator code of `grid.py`). -/
def broadcast (env : RespEnv) (targets : List String)
    (timeout k : Nat) : RoundResult :=
  let rt := roundReturnTime env targets timeout k
  { completed := targets.filterMap (fun g =>
      match env g with
      | some (t, Except.ok p) => if t ≤ rt then some (g, p) else none
      | _ => none),
    failed := targets.filterMap (fun g =>
      match env g with
      | some (t, Except.error e) => if t ≤ rt then some (g, e) else none
      | _ => none),
    timedOut := targets.filter (fun g =>
      match env g with
      | some (t, _) => decide (rt < t)
      | none => true) }

/-- Modelled from the spec: Scenario A's response schedule: target `A`
responds at 1s with payload `ok`, target `B` never responds. -/
def scenarioAEnv : RespEnv :=
  fun g => if g = "A" then some (1, Except.ok "ok") else none

/-- Modelled from the spec: per-target status of a round,
`Idle → Sent → {Fulfilled | TimedOut | Failed}` (missing coordinator code
of `grid.py`). -/
inductive TargetStatus
  | idle
  | sent
  | fulfilled
  | timedOut
  | failed
deriving DecidableEq

/-- Modelled from the spec: the events that may touch a per-target status:
the send, the first matching successful response, the first matching error
response, or the deadline firing (missing coordinator code of
`grid.py`). -/
inductive TargetEvent
  | send
  | responseOk
  | responseErr
  | deadlineFire
deriving DecidableEq

/-- Modelled from the spec: whether a per-target status is terminal
(missing coordinator code of `grid.py`). -/
def terminalStatus : TargetStatus → Bool
  | TargetStatus.fulfilled => true
  | TargetStatus.timedOut => true
  | TargetStatus.failed => true
  | _ => false

/-- Modelled from the spec: the per-target status transition function of a
round; any event not drawn as an edge of the state machine leaves the
status unchanged (missing coordinator code of `grid.py`). -/
def statusStep : TargetStatus → TargetEvent → TargetStatus
  | TargetStatus.idle, TargetEvent.send => TargetStatus.sent
  | TargetStatus.sent, TargetEvent.responseOk => TargetStatus.fulfilled
  | TargetStatus.sent, TargetEvent.responseErr => TargetStatus.failed
  | TargetStatus.sent, TargetEvent.deadlineFire => TargetStatus.timedOut
  | s, _ => s

/-- Modelled from the spec: lookup of a variable in the process
environment (missing configuration code of `grid.py`, which reads
`SYFT_FLWR_MSG_TIMEOUT`; the notebooks under notebooks/ set it with
`os.environ` before launching the aggregator). -/
def lookupEnv (env : List (String × String)) (k : String) : Option String :=
  (env.find? (fun kv => kv.1 == k)).map (fun kv => kv.2)

/-- Modelled from the spec: parse of a decimal number of seconds from an
environment variable value (missing configuration code of `grid.py`). -/
def parseNatDigits (s : String) : Option Nat :=
  if (s.data ≠ []) ∧ s.data.all Char.isDigit = true then
    some (s.data.foldl (fun n c => 10 * n + (c.toNat - 48)) 0)
  else none

/-- Modelled from the spec: the process-wide per-message timeout of the
sender's `wait`, read in seconds from the environment variable
`SYFT_FLWR_MSG_TIMEOUT` (missing configuration code of `grid.py`). -/
def msgTimeoutSeconds (env : List (String × String)) : Option Nat :=
  (lookupEnv env "SYFT_FLWR_MSG_TIMEOUT").bind parseNatDigits

/-- The environment set up by the data-scientist notebook before it runs
the aggregator (src/unnamed/part_005 line 705,
notebooks/fl-diabetes-prediction/ds.ipynb line 287). -/
def dsNotebookEnv : List (String × String) :=
  [("LOGURU_LEVEL", "DEBUG"), ("SYFT_FLWR_MSG_TIMEOUT", "60")]

theorem findReq_cons_pos (a : PendingRequest) (st : List PendingRequest)
    (i : String) (ha : (a.id == i) = true) :
    findReq (a :: st) i = some a := by
  unfold findReq
  simp [ha]

theorem findReq_cons_neg (a : PendingRequest) (st : List PendingRequest)
    (i : String) (ha : (a.id == i) = false) :
    findReq (a :: st) i = findReq st i := by
  unfold findReq
  simp [ha]

theorem fulfill_cons (a : PendingRequest) (st : List PendingRequest)
    (i : String) (r : WaitResult) :
    fulfill (a :: st) i r =
      (if (a.id == i) = true
        then { a with status := ReqStatus.fulfilled r } else a) ::
        fulfill st i r := by
  unfold fulfill
  simp only [List.map_cons]

theorem findReq_fulfill (st : List PendingRequest) (i : String) (r : WaitResult)
    (pr : PendingRequest) (h : findReq st i = some pr) :
    findReq (fulfill st i r) i =
      some { pr with status := ReqStatus.fulfilled r } := by
  induction st with
  | nil => simp [findReq] at h
  | cons a st ih =>
    cases ha : a.id == i with
    | true =>
      rw [findReq_cons_pos a st i ha] at h
      injection h with h
      subst h
      rw [fulfill_cons a st i r, if_pos ha,
        findReq_cons_pos { a with status := ReqStatus.fulfilled r }
          (fulfill st i r) i ha]
    | false =>
      rw [findReq_cons_neg a st i ha] at h
      rw [fulfill_cons a st i r, if_neg (by simp [ha]),
        findReq_cons_neg a (fulfill st i r) i ha]
      exact ih h

theorem findReq_cancel (st : List PendingRequest) (i : String) :
    findReq (cancel st i) i = none := by
  induction st with
  | nil => rfl
  | cons a st ih =>
    unfold cancel at ih ⊢
    cases ha : a.id == i with
    | true =>
      rw [List.filter_cons, if_neg (by simp [ha])]
      exact ih
    | false =>
      rw [List.filter_cons, if_pos (by simp [ha]),
        findReq_cons_neg a (List.filter (fun pr => !(pr.id == i)) st) i ha]
      exact ih

theorem observe_nonpending_unchanged (st : List PendingRequest) (f : Frame)
    (i : String) (pr : PendingRequest)
    (hk : f.kind = Kind.response) (hc : f.correlationId = some i)
    (hfind : findReq st i = some pr) (hp : pr.status ≠ ReqStatus.pending) :
    observeResponse st f = (st, ObserveOutcome.duplicateDelivery) := by
  cases hs : pr.status with
  | pending => exact absurd hs hp
  | fulfilled r => simp [observeResponse, hk, hc, hfind, hs]
  | timedOut => simp [observeResponse, hk, hc, hfind, hs]

/-- C1: exactly-once resolution.  When the pending request `i` is still
Pending, the first observed response frame whose correlation_id is `i`
fulfills it and yields its result; after that, a further matching response
frame leaves the tracker state untouched and is classified
`DuplicateDelivery` — discarded silently, never altering the stored result
and never an error. -/
theorem exactly_once_resolution (st : List PendingRequest) (f f2 : Frame)
    (i : String) (pr : PendingRequest)
    (hfind : findReq st i = some pr) (hp : pr.status = ReqStatus.pending)
    (hk : f.kind = Kind.response) (hc : f.correlationId = some i)
    (hk2 : f2.kind = Kind.response) (hc2 : f2.correlationId = some i) :
    observeResponse st f =
      (fulfill st i (resultOfBody f.body),
        ObserveOutcome.fulfilled (resultOfBody f.body)) ∧
    findReq (fulfill st i (resultOfBody f.body)) i =
      some { pr with status := ReqStatus.fulfilled (resultOfBody f.body) } ∧
    observeResponse (fulfill st i (resultOfBody f.body)) f2 =
      (fulfill st i (resultOfBody f.body),
        ObserveOutcome.duplicateDelivery) := by
  have h2 := findReq_fulfill st i (resultOfBody f.body) pr hfind
  refine ⟨?_, h2, ?_⟩
  · simp [observeResponse, hk, hc, hfind, hp]
  · exact observe_nonpending_unchanged _ f2 i _ hk2 hc2 h2 (by simp)

/-- C1 witness: Scenario B at request id r1, the same response frame made
visible twice. -/
theorem exactly_once_resolution_witness :
    findReq [⟨"r1", 10, ReqStatus.pending⟩] "r1" =
        some ⟨"r1", 10, ReqStatus.pending⟩ ∧
    observeResponse [⟨"r1", 10, ReqStatus.pending⟩]
        ⟨"r1", "b", "a", Kind.response, some "r1", Body.ok "res"⟩ =
      (fulfill [⟨"r1", 10, ReqStatus.pending⟩] "r1"
          (resultOfBody (Body.ok "res")),
        ObserveOutcome.fulfilled (resultOfBody (Body.ok "res"))) ∧
    observeResponse
        (fulfill [⟨"r1", 10, ReqStatus.pending⟩] "r1"
          (resultOfBody (Body.ok "res")))
        ⟨"r1", "b", "a", Kind.response, some "r1", Body.ok "res"⟩ =
      (fulfill [⟨"r1", 10, ReqStatus.pending⟩] "r1"
          (resultOfBody (Body.ok "res")),
        ObserveOutcome.duplicateDelivery) :=
  ⟨by decide,
    (exactly_once_resolution [⟨"r1", 10, ReqStatus.pending⟩]
      ⟨"r1", "b", "a", Kind.response, some "r1", Body.ok "res"⟩
      ⟨"r1", "b", "a", Kind.response, some "r1", Body.ok "res"⟩
      "r1" ⟨"r1", 10, ReqStatus.pending⟩
      (by decide) rfl rfl rfl rfl rfl).1,
    (exactly_once_resolution [⟨"r1", 10, ReqStatus.pending⟩]
      ⟨"r1", "b", "a", Kind.response, some "r1", Body.ok "res"⟩
      ⟨"r1", "b", "a", Kind.response, some "r1", Body.ok "res"⟩
      "r1" ⟨"r1", 10, ReqStatus.pending⟩
      (by decide) rfl rfl rfl rfl rfl).2.2⟩

/-- C5: once request `i` has been canceled — explicitly or by its round's
deadline — any later matching response is discarded as stale: it never
fulfills the canceled wait, and when a later round registers a fresh
pending request (a different globally unique id) for the same target, the
stale response still changes nothing, leaving the new round's pending
request intact. -/
theorem canceled_response_stale (st : List PendingRequest) (f : Frame)
    (i : String) (pr2 : PendingRequest)
    (hk : f.kind = Kind.response) (hc : f.correlationId = some i)
    (hne : pr2.id ≠ i) :
    observeResponse (cancel st i) f = (cancel st i, ObserveOutcome.stale) ∧
    observeResponse (registerPending (cancel st i) pr2) f =
      (registerPending (cancel st i) pr2, ObserveOutcome.stale) ∧
    findReq (registerPending (cancel st i) pr2) pr2.id = some pr2 := by
  have h1 := findReq_cancel st i
  have hne2 : (pr2.id == i) = false := by simp [hne]
  have h2 : findReq (registerPending (cancel st i) pr2) i = none := by
    unfold registerPending
    rw [findReq_cons_neg pr2 (cancel st i) i hne2]
    exact h1
  refine ⟨?_, ?_, ?_⟩
  · simp [observeResponse, hk, hc, h1]
  · simp [observeResponse, hk, hc, h2]
  · unfold registerPending
    exact findReq_cons_pos pr2 (cancel st i) pr2.id (by simp)

/-- C5 witness: a canceled request's late response is stale and leaves the
next round's fresh pending request for the same target intact. -/
theorem canceled_response_stale_witness :
    observeResponse (cancel [⟨"r1", 10, ReqStatus.pending⟩] "r1")
        ⟨"r1", "b", "a", Kind.response, some "r1", Body.ok "late"⟩ =
      (cancel [⟨"r1", 10, ReqStatus.pending⟩] "r1", ObserveOutcome.stale) ∧
    observeResponse
        (registerPending (cancel [⟨"r1", 10, ReqStatus.pending⟩] "r1")
          ⟨"r2", 20, ReqStatus.pending⟩)
        ⟨"r1", "b", "a", Kind.response, some "r1", Body.ok "late"⟩ =
      (registerPending (cancel [⟨"r1", 10, ReqStatus.pending⟩] "r1")
          ⟨"r2", 20, ReqStatus.pending⟩,
        ObserveOutcome.stale) :=
  ⟨(canceled_response_stale [⟨"r1", 10, ReqStatus.pending⟩]
      ⟨"r1", "b", "a", Kind.response, some "r1", Body.ok "late"⟩
      "r1" ⟨"r2", 20, ReqStatus.pending⟩ rfl rfl (by decide)).1,
    (canceled_response_stale [⟨"r1", 10, ReqStatus.pending⟩]
      ⟨"r1", "b", "a", Kind.response, some "r1", Body.ok "late"⟩
      "r1" ⟨"r2", 20, ReqStatus.pending⟩ rfl rfl (by decide)).2.1⟩

theorem nextInterval_bounds (cap i : Nat) (h1 : 1 ≤ i) (h2 : i ≤ cap) :
    1 ≤ nextInterval cap i ∧ nextInterval cap i ≤ cap := by
  unfold nextInterval
  omega

/-- C4: the poll interval is capped at `cap`, and when no response is ever
observed, `wait` (run with enough fuel to reach the deadline) returns
`TimedOut` at a time no later than the deadline plus the capped poll
interval — the requested timeout plus a bounded polling overhead. -/
theorem wait_timeout_bound (responded : Nat → Bool) (deadline cap : Nat)
    (hnr : ∀ t, responded t = false) :
    (∀ i, nextInterval cap i ≤ cap) ∧
    ∀ fuel now interval, 1 ≤ interval → interval ≤ cap →
      now ≤ deadline + cap → deadline < now + fuel → 1 ≤ fuel →
      ∃ tEnd, waitPoll responded deadline cap now interval fuel =
          some (tEnd, WaitEnd.timedOut) ∧ tEnd ≤ deadline + cap := by
  constructor
  · intro i
    unfold nextInterval
    omega
  · intro fuel
    induction fuel with
    | zero =>
      intro now interval h1 h2 h3 h4 h5
      omega
    | succ fuel ih =>
      intro now interval h1 h2 h3 h4 h5
      by_cases hd : deadline ≤ now
      · refine ⟨now, ?_, h3⟩
        simp only [waitPoll, hnr now, Bool.false_eq_true, if_false, if_pos hd]
      · have hb := nextInterval_bounds cap interval h1 h2
        have hlt : now < deadline := by omega
        obtain ⟨tEnd, he, hle⟩ := ih (now + interval) (nextInterval cap interval)
          hb.1 hb.2 (by omega) (by omega) (by omega)
        refine ⟨tEnd, ?_, hle⟩
        simp only [waitPoll, hnr now, Bool.false_eq_true, if_false, if_neg hd]
        exact he

/-- C4 witness: a silent peer, timeout 5, poll cap 2: the wait times out
by time 7 = timeout + cap. -/
theorem wait_timeout_bound_witness :
    (1 : Nat) ≤ 1 ∧ (1 : Nat) ≤ 2 ∧ (0 : Nat) ≤ 5 + 2 ∧ (5 : Nat) < 0 + 6 ∧
      (1 : Nat) ≤ 6 ∧
      ∃ tEnd, waitPoll (fun _ => false) 5 2 0 1 6 =
          some (tEnd, WaitEnd.timedOut) ∧ tEnd ≤ 5 + 2 :=
  ⟨by decide, by decide, by decide, by decide, by decide,
    (wait_timeout_bound (fun _ => false) 5 2 (fun _ => rfl)).2 6 0 1
      (by decide) (by decide) (by decide) (by decide) (by decide)⟩

theorem countId_append (l l2 : List String) (i : String) :
    countId (l ++ l2) i = countId l i + countId l2 i := by
  unfold countId
  rw [List.filter_append, List.length_append]

theorem countId_single (j i : String) :
    countId [j] i = if j = i then 1 else 0 := by
  unfold countId
  by_cases hj : j = i
  · simp [hj]
  · simp [hj]

theorem serve_cons (h : String → Except String String) (st : ReceiverState)
    (f : Frame) (fs : List Frame) :
    serve h st (f :: fs) = serve h (handleRequest h st f) fs :=
  rfl

theorem handleRequest_cases (h : String → Except String String)
    (st : ReceiverState) (f : Frame) :
    handleRequest h st f = st ∨
    (f.kind = Kind.request ∧ f.id ∉ st.processed ∧
      handleRequest h st f =
        { processed := f.id :: st.processed,
          outbox := st.outbox ++
            [responseFrame f (handlerBody h (payloadOf f.body))],
          invocations := st.invocations ++ [f.id] }) := by
  unfold handleRequest
  by_cases hk : f.kind = Kind.request
  · by_cases hm : f.id ∈ st.processed
    · left
      simp [hk, hm]
    · right
      exact ⟨hk, hm, by simp [hk, hm]⟩
  · left
    simp [hk]

theorem serve_processed_frozen (h : String → Except String String)
    (i : String) :
    ∀ (fs : List Frame) (st : ReceiverState), i ∈ st.processed →
      countId (serve h st fs).invocations i = countId st.invocations i ∧
      i ∈ (serve h st fs).processed := by
  intro fs
  induction fs with
  | nil =>
    intro st hm
    exact ⟨rfl, hm⟩
  | cons f fs ih =>
    intro st hm
    have hstep :
        countId (handleRequest h st f).invocations i =
            countId st.invocations i ∧
          i ∈ (handleRequest h st f).processed := by
      rcases handleRequest_cases h st f with heq | ⟨hk, hfm, heq⟩
      · rw [heq]
        exact ⟨rfl, hm⟩
      · rw [heq]
        have hne : f.id ≠ i := fun he => hfm (he ▸ hm)
        constructor
        · show countId (st.invocations ++ [f.id]) i = countId st.invocations i
          rw [countId_append, countId_single]
          simp [hne]
        · exact List.mem_cons_of_mem _ hm
    have hrec := ih (handleRequest h st f) hstep.2
    rw [serve_cons]
    exact ⟨hrec.1.trans hstep.1, hrec.2⟩

theorem serve_count_le_one (h : String → Except String String) (i : String) :
    ∀ (fs : List Frame) (st : ReceiverState),
      countId st.invocations i = 0 →
      countId (serve h st fs).invocations i ≤ 1 := by
  intro fs
  induction fs with
  | nil =>
    intro st h0
    simp [serve, h0]
  | cons f fs ih =>
    intro st h0
    rw [serve_cons]
    rcases handleRequest_cases h st f with heq | ⟨hk, hfm, heq⟩
    · rw [heq]
      exact ih st h0
    · by_cases hfi : f.id = i
      · have hm : i ∈ (handleRequest h st f).processed := by
          rw [heq]
          exact hfi ▸ List.mem_cons_self _ _
        have hfrozen := serve_processed_frozen h i fs (handleRequest h st f) hm
        rw [hfrozen.1, heq]
        show countId (st.invocations ++ [f.id]) i ≤ 1
        rw [countId_append, countId_single]
        simp [hfi, h0]
      · have h0new : countId (handleRequest h st f).invocations i = 0 := by
          rw [heq]
          show countId (st.invocations ++ [f.id]) i = 0
          rw [countId_append, countId_single]
          simp [hfi, h0]
        exact ih _ h0new

/-- C6: the receiver's serve loop invokes the handler at most once per
request id: an id already in the recently-processed set is skipped, so
re-scans and duplicate deliveries never cause a second invocation; and a
fresh request's id is marked processed in the same atomic step that writes
its response frame. -/
theorem handler_invoked_at_most_once (h : String → Except String String)
    (st : ReceiverState) (fs : List Frame) (i : String)
    (h0 : countId st.invocations i = 0) :
    countId (serve h st fs).invocations i ≤ 1 ∧
    ∀ f : Frame, f.kind = Kind.request → f.id ∉ st.processed →
      (handleRequest h st f).processed = f.id :: st.processed ∧
      (handleRequest h st f).outbox =
        st.outbox ++ [responseFrame f (handlerBody h (payloadOf f.body))] := by
  refine ⟨serve_count_le_one h i fs st h0, ?_⟩
  intro f hk hm
  unfold handleRequest
  simp [hk, hm]

/-- C6 witness: the same request delivered twice invokes the handler only
once. -/
theorem handler_invoked_at_most_once_witness :
    countId (⟨[], [], []⟩ : ReceiverState).invocations "q1" = 0 ∧
      countId
        (serve (fun p => Except.ok p) ⟨[], [], []⟩
          [⟨"q1", "ds", "do", Kind.request, none, Body.ok "task"⟩,
            ⟨"q1", "ds", "do", Kind.request, none, Body.ok "task"⟩]).invocations
        "q1" ≤ 1 :=
  ⟨by decide,
    (handler_invoked_at_most_once (fun p => Except.ok p) ⟨[], [], []⟩
      [⟨"q1", "ds", "do", Kind.request, none, Body.ok "task"⟩,
        ⟨"q1", "ds", "do", Kind.request, none, Body.ok "task"⟩]
      "q1" (by decide)).1⟩

/-- C7: a handler failure is converted into an explicit error-response
frame for the request id — never silently dropped — and a sender observing
that frame while its request is still pending resolves the wait with a
`HandlerError` result rather than a timeout; the wait loop returns the
result at the instant it is observed, without waiting for the deadline. -/
theorem handler_error_reported (h : String → Except String String)
    (st : ReceiverState) (f : Frame) (sst : List PendingRequest)
    (pr : PendingRequest) (e p : String)
    (hk : f.kind = Kind.request) (hb : f.body = Body.ok p)
    (hh : h p = Except.error e) (hfresh : f.id ∉ st.processed)
    (hfind : findReq sst f.id = some pr)
    (hp : pr.status = ReqStatus.pending) :
    (handleRequest h st f).outbox =
      st.outbox ++ [responseFrame f (Body.err e)] ∧
    observeResponse sst (responseFrame f (Body.err e)) =
      (fulfill sst f.id (WaitResult.handlerError e),
        ObserveOutcome.fulfilled (WaitResult.handlerError e)) ∧
    ∀ (responded : Nat → Bool) (deadline cap now interval fuel : Nat),
      responded now = true →
      waitPoll responded deadline cap now interval (fuel + 1) =
        some (now, WaitEnd.fulfilled) := by
  refine ⟨?_, ?_, ?_⟩
  · unfold handleRequest
    simp [hk, hfresh, handlerBody, payloadOf, hb, hh]
  · simp [observeResponse, responseFrame, hfind, hp, resultOfBody]
  · intro responded deadline cap now interval fuel hr
    simp [waitPoll, hr]

/-- C7 witness: a handler that raises produces an error-response that
fulfills the sender's pending wait with a HandlerError. -/
theorem handler_error_reported_witness :
    (handleRequest (fun _ => Except.error "boom") ⟨[], [], []⟩
        ⟨"q1", "ds", "do", Kind.request, none, Body.ok "task"⟩).outbox =
      (⟨[], [], []⟩ : ReceiverState).outbox ++
        [responseFrame ⟨"q1", "ds", "do", Kind.request, none, Body.ok "task"⟩
          (Body.err "boom")] ∧
    observeResponse [⟨"q1", 9, ReqStatus.pending⟩]
        (responseFrame ⟨"q1", "ds", "do", Kind.request, none, Body.ok "task"⟩
          (Body.err "boom")) =
      (fulfill [⟨"q1", 9, ReqStatus.pending⟩] "q1"
          (WaitResult.handlerError "boom"),
        ObserveOutcome.fulfilled (WaitResult.handlerError "boom")) ∧
    waitPoll (fun _ => true) 9 2 3 1 (0 + 1) = some (3, WaitEnd.fulfilled) :=
  ⟨(handler_error_reported (fun _ => Except.error "boom") ⟨[], [], []⟩
      ⟨"q1", "ds", "do", Kind.request, none, Body.ok "task"⟩
      [⟨"q1", 9, ReqStatus.pending⟩] ⟨"q1", 9, ReqStatus.pending⟩
      "boom" "task" rfl rfl rfl (by decide) (by decide) rfl).1,
    (handler_error_reported (fun _ => Except.error "boom") ⟨[], [], []⟩
      ⟨"q1", "ds", "do", Kind.request, none, Body.ok "task"⟩
      [⟨"q1", 9, ReqStatus.pending⟩] ⟨"q1", 9, ReqStatus.pending⟩
      "boom" "task" rfl rfl rfl (by decide) (by decide) rfl).2.1,
    (handler_error_reported (fun _ => Except.error "boom") ⟨[], [], []⟩
      ⟨"q1", "ds", "do", Kind.request, none, Body.ok "task"⟩
      [⟨"q1", 9, ReqStatus.pending⟩] ⟨"q1", 9, ReqStatus.pending⟩
      "boom" "task" rfl rfl rfl (by decide) (by decide) rfl).2.2
      (fun _ => true) 9 2 3 1 0 rfl⟩

theorem bytes_roundtrip (n : Nat) (h : n < 4294967296) :
    ((n / 16777216 % 256 * 256 + n / 65536 % 256) * 256 +
      n / 256 % 256) * 256 + n % 256 = n := by
  omega

/-- C8: for every payload/metadata pair `(p, m)` (with the metadata block
shorter than the codec's 4-byte length header can count), decoding the
frame produced by encoding yields the original pair:
`decode (encode p m) = (p, m)`. -/
theorem codec_round_trip (p m : List Nat) (h : m.length < 4294967296) :
    decode (encode p m) = Except.ok (p, m) := by
  have hb := bytes_roundtrip m.length h
  have hlen : m.length ≤ (m ++ p).length := by simp
  simp only [encode, natTo4Bytes, List.cons_append, List.nil_append, decode]
  rw [hb, if_pos hlen, List.take_left, List.drop_left]

/-- C8 witness: the round trip evaluated at a concrete frame. -/
theorem codec_round_trip_witness :
    ([(3 : Nat), 4]).length < 4294967296 ∧
      decode (encode [1, 2] [3, 4]) = Except.ok ([1, 2], [3, 4]) :=
  ⟨by decide, codec_round_trip [1, 2] [3, 4] (by decide)⟩

theorem leastQuorumTime_le_add (p : Nat → Bool) :
    ∀ (fuel t : Nat), leastQuorumTime p t fuel ≤ t + fuel := by
  intro fuel
  induction fuel with
  | zero =>
    intro t
    simp [leastQuorumTime]
  | succ fuel ih =>
    intro t
    unfold leastQuorumTime
    cases hp : p t with
    | true =>
      rw [if_pos rfl]
      omega
    | false =>
      rw [if_neg Bool.false_ne_true]
      have := ih (t + 1)
      omega

theorem leastQuorumTime_le_of (p : Nat → Bool) (u : Nat) (hu : p u = true) :
    ∀ (fuel t : Nat), t ≤ u → u ≤ t + fuel → leastQuorumTime p t fuel ≤ u := by
  intro fuel
  induction fuel with
  | zero =>
    intro t h1 h2
    simpa [leastQuorumTime] using h1
  | succ fuel ih =>
    intro t h1 h2
    unfold leastQuorumTime
    cases hp : p t with
    | true =>
      rw [if_pos rfl]
      exact h1
    | false =>
      rw [if_neg Bool.false_ne_true]
      have hne : t ≠ u := by
        intro he
        rw [he, hu] at hp
        exact Bool.noConfusion hp
      exact ih (t + 1) (by omega) (by omega)

/-- C2: quorum short-circuit.  With `min_complete = k` smaller than the
number of targets, the round returns no later than any instant by which
`k` targets are Fulfilled — it does not wait for the remaining targets —
and for every value of `min_complete` the round never returns later than
its timeout. -/
theorem broadcast_quorum_short_circuit (env : RespEnv)
    (targets : List String) (timeout k t : Nat)
    (hk : k < targets.length) (ht : t ≤ timeout)
    (hq : k ≤ countFulfilledBy env targets t) :
    roundReturnTime env targets timeout k ≤ t ∧
    ∀ k2, roundReturnTime env targets timeout k2 ≤ timeout := by
  constructor
  · unfold roundReturnTime
    exact leastQuorumTime_le_of _ t (by simpa using hq) timeout 0
      (Nat.zero_le t) (by omega)
  · intro k2
    unfold roundReturnTime
    have := leastQuorumTime_le_add
      (fun t2 => decide (k2 ≤ countFulfilledBy env targets t2)) timeout 0
    simpa using this

/-- C2 witness: Scenario A's schedule with two targets and quorum one: the
round returns by time 1, and with an unreachable quorum of three it still
returns by the timeout. -/
theorem broadcast_quorum_short_circuit_witness :
    (1 : Nat) < (["A", "B"] : List String).length ∧ (1 : Nat) ≤ 5 ∧
      1 ≤ countFulfilledBy scenarioAEnv ["A", "B"] 1 ∧
      roundReturnTime scenarioAEnv ["A", "B"] 5 1 ≤ 1 ∧
      roundReturnTime scenarioAEnv ["A", "B"] 5 3 ≤ 5 :=
  ⟨by decide, by decide, by decide,
    (broadcast_quorum_short_circuit scenarioAEnv ["A", "B"] 5 1 1
      (by decide) (by decide) (by decide)).1,
    (broadcast_quorum_short_circuit scenarioAEnv ["A", "B"] 5 1 1
      (by decide) (by decide) (by decide)).2 3⟩

/-- C3: `broadcast` always returns a complete `RoundResult` classifying
every target — completed with its payload, failed with its handler error,
or timed out — and in Scenario A (targets A and B, timeout 5,
min_complete 1, A answering `ok` at time 1, B silent) it returns at time 1
with `completed = {A: ok}` and `timed_out = {B}`. -/
theorem broadcast_classifies_every_target (env : RespEnv)
    (targets : List String) (timeout k : Nat) (g : String)
    (hg : g ∈ targets) :
    ((∃ p, (g, p) ∈ (broadcast env targets timeout k).completed) ∨
      (∃ e, (g, e) ∈ (broadcast env targets timeout k).failed) ∨
      g ∈ (broadcast env targets timeout k).timedOut) ∧
    broadcast scenarioAEnv ["A", "B"] 5 1 =
      { completed := [("A", "ok")], timedOut := ["B"], failed := [] } ∧
    roundReturnTime scenarioAEnv ["A", "B"] 5 1 = 1 := by
  refine ⟨?_, by decide, by decide⟩
  cases he : env g with
  | none =>
    right
    right
    unfold broadcast
    simp only [List.mem_filter]
    exact ⟨hg, by simp [he]⟩
  | some tr =>
    obtain ⟨t0, r⟩ := tr
    cases r with
    | ok p =>
      by_cases hle : t0 ≤ roundReturnTime env targets timeout k
      · left
        refine ⟨p, ?_⟩
        unfold broadcast
        simp only [List.mem_filterMap]
        exact ⟨g, hg, by simp [he, hle]⟩
      · right
        right
        unfold broadcast
        simp only [List.mem_filter]
        refine ⟨hg, ?_⟩
        simp only [he]
        simp
        omega
    | error e =>
      by_cases hle : t0 ≤ roundReturnTime env targets timeout k
      · right
        left
        refine ⟨e, ?_⟩
        unfold broadcast
        simp only [List.mem_filterMap]
        exact ⟨g, hg, by simp [he, hle]⟩
      · right
        right
        unfold broadcast
        simp only [List.mem_filter]
        refine ⟨hg, ?_⟩
        simp only [he]
        simp
        omega

/-- C3 witness: the classification applied to target A of Scenario A. -/
theorem broadcast_classifies_every_target_witness :
    "A" ∈ (["A", "B"] : List String) ∧
      ((∃ p, ("A", p) ∈ (broadcast scenarioAEnv ["A", "B"] 5 1).completed) ∨
        (∃ e, ("A", e) ∈ (broadcast scenarioAEnv ["A", "B"] 5 1).failed) ∨
        "A" ∈ (broadcast scenarioAEnv ["A", "B"] 5 1).timedOut) :=
  ⟨by decide,
    (broadcast_classifies_every_target scenarioAEnv ["A", "B"] 5 1 "A"
      (by decide)).1⟩

/-- C9: every per-target status follows the state machine
`Idle → Sent → {Fulfilled | TimedOut | Failed}`: the three terminal
statuses absorb every event (no further transitions once terminal), the
send moves Idle to Sent, and every step is either a self-loop, the
Idle-to-Sent edge, or a Sent-to-terminal edge taken by the first matching
response or the deadline firing. -/
theorem status_state_machine :
    ∀ e : TargetEvent,
      statusStep TargetStatus.fulfilled e = TargetStatus.fulfilled ∧
      statusStep TargetStatus.timedOut e = TargetStatus.timedOut ∧
      statusStep TargetStatus.failed e = TargetStatus.failed ∧
      statusStep TargetStatus.idle TargetEvent.send = TargetStatus.sent ∧
      ∀ s : TargetStatus,
        statusStep s e = s ∨
        (s = TargetStatus.idle ∧ e = TargetEvent.send ∧
          statusStep s e = TargetStatus.sent) ∨
        (s = TargetStatus.sent ∧ terminalStatus (statusStep s e) = true) := by
  intro e
  refine ⟨by cases e <;> rfl, by cases e <;> rfl, by cases e <;> rfl, rfl, ?_⟩
  intro s
  cases s <;> cases e <;> simp [statusStep, terminalStatus]

/-- C10: the per-message timeout of the sender's wait is resolved
process-wide from the environment variable `SYFT_FLWR_MSG_TIMEOUT`, parsed
as a number of seconds: the data-scientist notebook's environment yields
60 seconds, and in general whatever decimal value the process environment
holds under that name is the timeout, with no per-call argument involved. -/
theorem msg_timeout_from_environment :
    msgTimeoutSeconds dsNotebookEnv = some 60 ∧
    ∀ (env : List (String × String)) (s : String) (n : Nat),
      lookupEnv env "SYFT_FLWR_MSG_TIMEOUT" = some s →
      parseNatDigits s = some n →
      msgTimeoutSeconds env = some n := by
  constructor
  · decide
  · intro env s n hs hn
    simp [msgTimeoutSeconds, hs, hn]

/-- C10 witness: the general environment rule applied to the notebook's
concrete environment. -/
theorem msg_timeout_from_environment_witness :
    lookupEnv dsNotebookEnv "SYFT_FLWR_MSG_TIMEOUT" = some "60" ∧
      parseNatDigits "60" = some 60 ∧
      msgTimeoutSeconds dsNotebookEnv = some 60 :=
  ⟨by decide, by decide,
    msg_timeout_from_environment.2 dsNotebookEnv "60" 60 (by decide) (by decide)⟩

end SyftFlwr
